import Mathlib

/-! Formal model of the relay service in src/server.js: a stateless HTTP
relay that accepts a JSON body on POST /ask-gemini, forwards it to a
fixed upstream endpoint with a server-held API key appended as a query
parameter, and relays the upstream result; a GET / health check returns
a fixed string. The outbound network is modelled as an oracle mapping
the outbound request to the outcome of the awaited fetch call. -/

/-- JSON values, the data the relay passes through. Numbers are modelled
as integers; objects are ordered key-value lists, as serialized. -/
inductive Json where
  | null : Json
  | bool : Bool → Json
  | num : Int → Json
  | str : String → Json
  | arr : List Json → Json
  | obj : List (String × Json) → Json

/-- Lower-case hexadecimal digit for a value below 16. -/
def hexDigit (n : Nat) : String :=
  String.singleton (Char.ofNat (if n < 10 then 48 + n else 87 + n))

/-- Escaping of a single character inside a JSON string literal, as
JSON.stringify produces it. -/
def escapeChar (c : Char) : String :=
  if c = '"' then "\\\""
  else if c = '\\' then "\\\\"
  else if c = '\n' then "\\n"
  else if c = '\r' then "\\r"
  else if c = '\t' then "\\t"
  else if c = '\x08' then "\\b"
  else if c = '\x0c' then "\\f"
  else if c.toNat < 32 then "\\u00" ++ hexDigit (c.toNat / 16) ++ hexDigit (c.toNat % 16)
  else String.singleton c

/-- JSON string literal: the escaped characters between double quotes. -/
def escapeString (s : String) : String :=
  "\"" ++ String.join (s.data.map escapeChar) ++ "\""

mutual

/-- Serialization of a JSON value, modelling JSON.stringify as the
handler applies it to the inbound body on line 46 of src/server.js. -/
def Json.stringify : Json → String
  | Json.null => "null"
  | Json.bool true => "true"
  | Json.bool false => "false"
  | Json.num n => toString n
  | Json.str s => escapeString s
  | Json.arr xs => "[" ++ stringifyArr xs ++ "]"
  | Json.obj kvs => "\x7b" ++ stringifyObj kvs ++ "\x7d"

/-- Comma-separated serialization of array elements. -/
def stringifyArr : List Json → String
  | [] => ""
  | [x] => Json.stringify x
  | x :: y :: xs => Json.stringify x ++ "," ++ stringifyArr (y :: xs)

/-- Comma-separated serialization of object members. -/
def stringifyObj : List (String × Json) → String
  | [] => ""
  | [(k, v)] => escapeString k ++ ":" ++ Json.stringify v
  | (k, v) :: p :: xs =>
    escapeString k ++ ":" ++ Json.stringify v ++ "," ++ stringifyObj (p :: xs)

end

/-- Body of an HTTP response sent by the relay: res.json sends a JSON
value, res.send a plain string. -/
inductive ResBody where
  | json : Json → ResBody
  | text : String → ResBody

/-- An HTTP response sent by the relay to its caller. -/
structure HttpResponse where
  status : Nat
  body : ResBody

/-- The outbound HTTP request the handler builds for fetch on lines
41-48 of src/server.js. -/
structure OutboundRequest where
  url : String
  method : String
  contentType : String
  body : String

/-- An upstream HTTP response: its status code, and the result of
awaiting response.json() on it — the parsed JSON value, or the message
of the thrown parse error. -/
structure UpstreamResponse where
  status : Nat
  json : Except String Json

/-- Outcome of the awaited fetch call: the promise rejects with an error
message (network failure, transport exception, timeout), or resolves to
an upstream response. -/
inductive FetchOutcome where
  | fetchError : String → FetchOutcome
  | got : UpstreamResponse → FetchOutcome

/-- The response.ok predicate of the fetch API: status in the inclusive
range 200 to 299, checked on line 51 of src/server.js. -/
def responseOk (status : Nat) : Bool :=
  decide (200 ≤ status) && decide (status < 300)

/-- Line 42 of src/server.js: the fixed upstream URL with the key
appended as the key query parameter. -/
def geminiUrl (key : String) : String :=
  "https://generativelanguage.googleapis.com/v1beta/models/gemini-2.0-flash:generateContent?key="
    ++ key

/-- Line 30 of src/server.js: JS falsiness of the GEMINI_API_KEY
environment variable — it is absent, or set to the empty string. -/
def keyMissing : Option String → Bool
  | none => true
  | some k => k == ""

/-- Line 32 of src/server.js: the configuration-error envelope. -/
def configErrorBody : Json :=
  Json.obj [("error", Json.str "Server configuration error: Gemini API Key missing.")]

/-- Line 67 of src/server.js: the communication-error envelope built in
the catch block, with the message of the thrown error as details. -/
def commErrorBody (msg : String) : Json :=
  Json.obj [("error", Json.str "Failed to communicate with AI."),
            ("details", Json.str msg)]

/-- Line 54 of src/server.js: the wrapper around a non-success upstream
JSON body. -/
def geminiErrorBody (details : Json) : Json :=
  Json.obj [("error", Json.str "Gemini API error"), ("details", details)]

/-- What one invocation of the POST /ask-gemini handler produces: the
response sent to the caller, and the list of outbound calls issued. -/
structure ForwardResult where
  response : HttpResponse
  calls : List OutboundRequest

/-- Lines 28-69 of src/server.js: the POST /ask-gemini handler. If the
key is falsy it responds 500 with the configuration error before any
outbound call. Otherwise it issues one fetch of the serialized body to
the fixed URL; a rejected fetch or a failed response.json() is caught
and answered 500 with the communication-error envelope; a non-ok
upstream status is answered with that status and the wrapper around the
upstream JSON; an ok upstream status is answered via res.json, whose
default status is 200, with the upstream JSON verbatim. -/
def askGemini (apiKey : Option String) (body : Json)
    (upstream : OutboundRequest → FetchOutcome) : ForwardResult :=
  if keyMissing apiKey then
    ⟨⟨500, ResBody.json configErrorBody⟩, []⟩
  else
    let req : OutboundRequest :=
      ⟨geminiUrl (apiKey.getD ""), "POST", "application/json", Json.stringify body⟩
    match upstream req with
    | FetchOutcome.fetchError msg =>
      ⟨⟨500, ResBody.json (commErrorBody msg)⟩, [req]⟩
    | FetchOutcome.got r =>
      if !(responseOk r.status) then
        match r.json with
        | Except.ok errorData =>
          ⟨⟨r.status, ResBody.json (geminiErrorBody errorData)⟩, [req]⟩
        | Except.error msg =>
          ⟨⟨500, ResBody.json (commErrorBody msg)⟩, [req]⟩
      else
        match r.json with
        | Except.ok data => ⟨⟨200, ResBody.json data⟩, [req]⟩
        | Except.error msg =>
          ⟨⟨500, ResBody.json (commErrorBody msg)⟩, [req]⟩

/-- Lines 72-75 of src/server.js: the GET / handler sends a fixed string
via res.send, whose default status is 200; it reads no state. -/
def healthCheck (_req : Unit) : HttpResponse :=
  ⟨200, ResBody.text "Gemini Backend is running!"⟩

/-- Line 10 of src/server.js: PORT from the environment with the JS ||
default of 3000; the environment value is a string when present and
non-empty, the default a number. -/
def resolvedPort : Option String → String ⊕ Nat
  | none => Sum.inr 3000
  | some p => if p = "" then Sum.inr 3000 else Sum.inl p

/-- Outcome of process startup: whether the server listens, and whether
the missing-key warning is logged. -/
structure StartupResult where
  listening : Bool
  warned : Bool

/-- Lines 78-84 of src/server.js: app.listen is called unconditionally;
the listen callback only logs a warning when the key is falsy, and
nothing on the startup path aborts for a missing key. -/
def startServer (apiKey : Option String) : StartupResult :=
  ⟨true, keyMissing apiKey⟩

/-- Lines 89-107 of src/server.js: the three process-level failure
events for which handlers are registered. -/
inductive FatalEvent where
  | serverError : String → FatalEvent
  | unhandledRejection : String → FatalEvent
  | uncaughtException : String → FatalEvent

/-- Exit code produced by the registered handler of each event: the
server error handler (line 92) and the uncaughtException handler
(line 106) call process.exit(1); the unhandledRejection handler only
logs — its exit call on line 99 is commented out — so the process keeps
running. -/
def exitCode : FatalEvent → Option Nat
  | FatalEvent.serverError _ => some 1
  | FatalEvent.unhandledRejection _ => none
  | FatalEvent.uncaughtException _ => some 1

/-- Modelled from the spec: the express.json body-parsing middleware
registered on line 19 of src/server.js, whose implementation is
dependency code not present under src. It parses the raw inbound body
as JSON; on failure it responds with a 400 client error and never
invokes the route handler. The inbound body is given as Option Json:
some v when the raw bytes parse to the JSON value v, none otherwise. -/
def handleAskGemini (apiKey : Option String) (inbound : Option Json)
    (upstream : OutboundRequest → FetchOutcome) : ForwardResult :=
  match inbound with
  | none => ⟨⟨400, ResBody.text "Bad Request"⟩, []⟩
  | some b => askGemini apiKey b upstream

/-- The concrete scenario body of the spec:
the object with key contents holding an array of one object with key
parts holding an array of one object with key text holding hi. -/
def scenarioBody : Json :=
  Json.obj [("contents", Json.arr [Json.obj [("parts",
    Json.arr [Json.obj [("text", Json.str "hi")]])]])]

/-- The concrete non-success upstream JSON of the spec scenario. -/
def badKeyJson : Json :=
  Json.obj [("error", Json.obj [("message", Json.str "bad key")])]

/-- With a non-empty key the handler reaches the fetch and issues exactly
the one outbound request it built, whatever the upstream outcome. -/
theorem askGemini_calls_eq (key : String) (B : Json)
    (upstream : OutboundRequest → FetchOutcome) (hk : key ≠ "") :
    (askGemini (some key) B upstream).calls =
      [⟨geminiUrl key, "POST", "application/json", Json.stringify B⟩] := by
  have h : keyMissing (some key) = false := by simp [keyMissing, hk]
  simp only [askGemini, h, Bool.false_eq_true, if_false, Option.getD_some]
  cases upstream ⟨geminiUrl key, "POST", "application/json", Json.stringify B⟩ with
  | fetchError msg => rfl
  | got r =>
    rcases r with ⟨status, rj⟩
    by_cases hok : responseOk status
    · cases rj <;> simp [hok]
    · cases rj <;> simp [hok]

/-- C1: with the secret configured, the handler issues exactly one
outbound POST to the fixed endpoint, with Content-Type application/json,
the secret appended as the key query parameter, and the serialization of
the inbound JSON value B as body — a body that serializes the same JSON
value as B. -/
theorem c1_forward_passthrough (key : String) (B : Json)
    (upstream : OutboundRequest → FetchOutcome) (hk : key ≠ "") :
    (askGemini (some key) B upstream).calls =
      [⟨geminiUrl key, "POST", "application/json", Json.stringify B⟩] :=
  askGemini_calls_eq key B upstream hk

/-- C1 witness at the concrete scenario of the spec: key ABC123 and the
sample body; the outbound URL is the fixed endpoint ending in
generateContent?key=ABC123. -/
theorem c1_forward_passthrough_witness :
    ("ABC123" : String) ≠ "" ∧
    (askGemini (some "ABC123") scenarioBody
        (fun _ => FetchOutcome.fetchError "down")).calls =
      [⟨geminiUrl "ABC123", "POST", "application/json", Json.stringify scenarioBody⟩] ∧
    geminiUrl "ABC123" =
      "https://generativelanguage.googleapis.com/v1beta/models/gemini-2.0-flash:generateContent?key=ABC123" :=
  ⟨by decide, c1_forward_passthrough "ABC123" scenarioBody _ (by decide), rfl⟩

/-- C2: with the secret unconfigured the handler answers 500 with exactly
the configuration-error envelope and issues zero outbound calls, before
any network activity. -/
theorem c2_missing_key_config_error (B : Json)
    (upstream : OutboundRequest → FetchOutcome) :
    askGemini none B upstream = ⟨⟨500, ResBody.json configErrorBody⟩, []⟩ := rfl

/-- C3 counterexample: the upstream replies with success status 201 and a
JSON body, but the relay answers with status 200, not the upstream 201,
so the status accompanying the body is not always the upstream status. -/
theorem c3_status_mismatch_counterexample :
    (askGemini (some "k") (Json.obj [])
      (fun _ => FetchOutcome.got ⟨201, Except.ok (Json.obj [])⟩)).response.status ≠ 201 := by
  decide

/-- C3 amended: for an upstream response whose body parses as JSON, the
relay answers with the upstream status and the wrapper envelope when the
upstream status is not a success, and with status 200 — not necessarily
the upstream status — and the upstream JSON verbatim when the upstream
status is a success (200-299). -/
theorem c3_amended_relay (key : String) (B : Json) (status : Nat) (v : Json)
    (hk : key ≠ "") :
    (askGemini (some key) B (fun _ => FetchOutcome.got ⟨status, Except.ok v⟩)).response =
      (if responseOk status then ⟨200, ResBody.json v⟩
       else ⟨status, ResBody.json (geminiErrorBody v)⟩) := by
  have h : keyMissing (some key) = false := by simp [keyMissing, hk]
  by_cases hok : responseOk status <;> simp [askGemini, h, hok]

/-- C3 witness at the concrete scenario of the spec: upstream 404 with
the bad-key JSON is wrapped and relayed with status 404. -/
theorem c3_amended_relay_witness :
    ("k" : String) ≠ "" ∧
    (askGemini (some "k") (Json.obj [])
        (fun _ => FetchOutcome.got ⟨404, Except.ok badKeyJson⟩)).response =
      (if responseOk 404 then ⟨200, ResBody.json badKeyJson⟩
       else ⟨404, ResBody.json (geminiErrorBody badKeyJson)⟩) :=
  ⟨by decide, c3_amended_relay "k" (Json.obj []) 404 badKeyJson (by decide)⟩

/-- C4: with the secret configured, a rejected fetch and a failed JSON
parse of the upstream body are each answered 500 with the
communication-error envelope carrying the error message as details —
non-empty whenever the thrown message is — and exactly one outbound call
is made, so no retry happens. -/
theorem c4_comm_failure (key : String) (B : Json) (msg : String) (status : Nat)
    (hk : key ≠ "") (hm : msg ≠ "") :
    ((askGemini (some key) B (fun _ => FetchOutcome.fetchError msg)).response =
        ⟨500, ResBody.json (commErrorBody msg)⟩ ∧
      (askGemini (some key) B (fun _ => FetchOutcome.fetchError msg)).calls.length = 1) ∧
    ((askGemini (some key) B
          (fun _ => FetchOutcome.got ⟨status, Except.error msg⟩)).response =
        ⟨500, ResBody.json (commErrorBody msg)⟩ ∧
      (askGemini (some key) B
          (fun _ => FetchOutcome.got ⟨status, Except.error msg⟩)).calls.length = 1) ∧
    commErrorBody msg ≠ commErrorBody "" := by
  have h : keyMissing (some key) = false := by simp [keyMissing, hk]
  refine ⟨⟨?_, ?_⟩, ⟨?_, ?_⟩, ?_⟩
  · simp [askGemini, h]
  · simp [askGemini, h]
  · by_cases hok : responseOk status <;> simp [askGemini, h, hok]
  · by_cases hok : responseOk status <;> simp [askGemini, h, hok]
  · simp [commErrorBody, hm]

/-- C4 witness at a concrete failure: key k, empty object body, message
fetch failed, upstream status 502. -/
theorem c4_comm_failure_witness :
    ("k" : String) ≠ "" ∧ ("fetch failed" : String) ≠ "" ∧
    (((askGemini (some "k") (Json.obj [])
          (fun _ => FetchOutcome.fetchError "fetch failed")).response =
        ⟨500, ResBody.json (commErrorBody "fetch failed")⟩ ∧
      (askGemini (some "k") (Json.obj [])
          (fun _ => FetchOutcome.fetchError "fetch failed")).calls.length = 1) ∧
    ((askGemini (some "k") (Json.obj [])
          (fun _ => FetchOutcome.got ⟨502, Except.error "fetch failed"⟩)).response =
        ⟨500, ResBody.json (commErrorBody "fetch failed")⟩ ∧
      (askGemini (some "k") (Json.obj [])
          (fun _ => FetchOutcome.got ⟨502, Except.error "fetch failed"⟩)).calls.length = 1) ∧
    commErrorBody "fetch failed" ≠ commErrorBody "") :=
  ⟨by decide, by decide,
    c4_comm_failure "k" (Json.obj []) "fetch failed" 502 (by decide) (by decide)⟩

/-- C5 counterexample: an unhandled promise rejection — an asynchronous
error escaping handler-level recovery — does not terminate the process:
its registered handler only logs and produces no exit. -/
theorem c5_no_exit_on_rejection :
    exitCode (FatalEvent.unhandledRejection "boom") ≠ some 1 := by decide

/-- C5 amended: the process exits with code 1 on a failure to bind the
listening port and on an uncaught synchronous exception, but an
unhandled promise rejection is only logged and the process keeps
running. -/
theorem c5_amended_exit_codes (m : String) :
    exitCode (FatalEvent.serverError m) = some 1 ∧
    exitCode (FatalEvent.uncaughtException m) = some 1 ∧
    exitCode (FatalEvent.unhandledRejection m) = none :=
  ⟨rfl, rfl, rfl⟩

/-- C6: the GET / handler always answers 200 with exactly the literal
string, and the answer is the same for any two invocations — no state is
carried between calls. -/
theorem c6_health_check (r1 r2 : Unit) :
    healthCheck r1 = ⟨200, ResBody.text "Gemini Backend is running!"⟩ ∧
    healthCheck r1 = healthCheck r2 :=
  ⟨rfl, rfl⟩

/-- C7: with GEMINI_API_KEY absent the process still starts and listens,
logging a warning; only /ask-gemini degrades, to the 500 configuration
error with no outbound call, while the health check is unaffected. -/
theorem c7_start_without_key (B : Json)
    (upstream : OutboundRequest → FetchOutcome) :
    (startServer none).listening = true ∧
    (startServer none).warned = true ∧
    askGemini none B upstream = ⟨⟨500, ResBody.json configErrorBody⟩, []⟩ ∧
    healthCheck () = ⟨200, ResBody.text "Gemini Backend is running!"⟩ :=
  ⟨rfl, rfl, rfl, rfl⟩

/-- C8: the listening port is the value of the PORT environment variable
when it is set and non-empty, and defaults to the number 3000 when PORT
is unset. -/
theorem c8_port_default (p : String) (hp : p ≠ "") :
    resolvedPort none = Sum.inr 3000 ∧ resolvedPort (some p) = Sum.inl p := by
  refine ⟨rfl, ?_⟩
  simp [resolvedPort, hp]

/-- C8 witness at the concrete port 8080. -/
theorem c8_port_default_witness :
    ("8080" : String) ≠ "" ∧
    (resolvedPort none = Sum.inr 3000 ∧ resolvedPort (some "8080") = Sum.inl "8080") :=
  ⟨by decide, c8_port_default "8080" (by decide)⟩

/-- C9: the outbound URL is determined solely by the configured secret:
for any two bodies and upstream behaviours under the same key, the list
of outbound URLs is the same singleton — the fixed host, path and model
with that key — so the caller cannot influence where the secret is
sent. -/
theorem c9_url_independent_of_body (key : String) (B1 B2 : Json)
    (u1 u2 : OutboundRequest → FetchOutcome) (hk : key ≠ "") :
    (askGemini (some key) B1 u1).calls.map OutboundRequest.url = [geminiUrl key] ∧
    (askGemini (some key) B1 u1).calls.map OutboundRequest.url =
      (askGemini (some key) B2 u2).calls.map OutboundRequest.url := by
  rw [askGemini_calls_eq key B1 u1 hk, askGemini_calls_eq key B2 u2 hk]
  exact ⟨rfl, rfl⟩

/-- C9 witness at two different concrete bodies and upstream behaviours
under the same key. -/
theorem c9_url_independent_of_body_witness :
    ("ABC123" : String) ≠ "" ∧
    ((askGemini (some "ABC123") scenarioBody
        (fun _ => FetchOutcome.fetchError "down")).calls.map OutboundRequest.url =
      [geminiUrl "ABC123"] ∧
    (askGemini (some "ABC123") scenarioBody
        (fun _ => FetchOutcome.fetchError "down")).calls.map OutboundRequest.url =
      (askGemini (some "ABC123") (Json.obj [])
        (fun _ => FetchOutcome.got ⟨200, Except.ok Json.null⟩)).calls.map
          OutboundRequest.url) :=
  ⟨by decide,
    c9_url_independent_of_body "ABC123" scenarioBody (Json.obj []) _ _ (by decide)⟩

/-- C10: an inbound body that is not valid JSON is rejected by the
body-parsing middleware with a 400 client error before the handler
runs: no outbound call is made and the response body is not a JSON
value at all, so neither the configuration-error nor the
communication-error envelope is produced. -/
theorem c10_invalid_body_rejected (apiKey : Option String)
    (upstream : OutboundRequest → FetchOutcome) :
    (handleAskGemini apiKey none upstream).response.status = 400 ∧
    (handleAskGemini apiKey none upstream).calls = [] ∧
    ∀ j : Json, (handleAskGemini apiKey none upstream).response.body ≠ ResBody.json j :=
  ⟨rfl, rfl, fun _ h => nomatch h⟩
